import Mathlib

/-!
Verification of the `handler` package of gilcrest/go-api-basic: the
middleware chain (logger context enrichment, JSON content type, access-token
extraction), the standard response envelope and the JSON decode-error
classifier.  Pure Go functions are embedded as Lean functions; the
`http.Handler` interface is embedded as a function from the request and the
response-writer state to the final response-writer state.  Collaborators of
the handler package that live outside the staged sources (the `errs` and
`auth` domain packages and the `hlog` middleware library) are modelled from
the specification; each such definition says so in its doc comment.
-/

namespace GoApiBasic

/-- Go strings.HasPrefix: tests whether the string s begins with pre
(modelled at the character level). -/
def goHasPrefix (s pre : String) : Bool :=
  pre.data.isPrefixOf s.data

/-- Go strings.TrimPrefix: returns s without the provided leading pre
string; if s does not start with pre, s is returned unchanged.  The
prefix is removed at most once. -/
def goTrimPrefix (s pre : String) : String :=
  if goHasPrefix s pre then String.mk (s.data.drop pre.data.length) else s

/-- Go error values relevant to the handler package: the io.EOF and
io.ErrUnexpectedEOF sentinels (compared by identity in Go, hence distinct
constructors even though an errors.New value could carry the same text),
and ad-hoc errors produced by errors.New. -/
inductive GoError where
  | ioEOF
  | ioErrUnexpectedEOF
  | errorsNew (msg : String)
deriving DecidableEq, Repr

/-- The user-facing message of a Go error value. -/
def GoError.message : GoError → String
  | .ioEOF => "EOF"
  | .ioErrUnexpectedEOF => "unexpected EOF"
  | .errorsNew m => m

/-- Modelled from the spec: the fixed kind taxonomy of the errs
collaborator — unauthenticated, unauthorized, invalid-request, not-found,
conflict, internal. -/
inductive ErrKind where
  | unauthenticated
  | unauthorized
  | invalidRequest
  | notFound
  | conflict
  | internal
deriving DecidableEq, Repr

/-- Modelled from the spec: a classified error of the errs collaborator —
a kind tag (none when the caller supplied no kind: the kind is left to the
caller/default and maps with internal/unclassified) plus the wrapped
lower-level cause. -/
structure ClassifiedError where
  kind : Option ErrKind
  cause : GoError
deriving DecidableEq, Repr

/-- The human-readable message of a classified error: the message of its
wrapped cause. -/
def ClassifiedError.message (e : ClassifiedError) : String := e.cause.message

/-- Modelled from the spec: errs.E called with a kind and a cause. -/
def errsEK (k : ErrKind) (cause : GoError) : ClassifiedError := ⟨some k, cause⟩

/-- Modelled from the spec: errs.E called with only an error — wrapped as a
generic classified error without reclassification. -/
def errsE (cause : GoError) : ClassifiedError := ⟨none, cause⟩

/-- Modelled from the spec: the kind-to-HTTP-status mapping of the errs
collaborator; an unclassified error maps with internal to 500. -/
def kindStatus : Option ErrKind → Nat
  | some .unauthenticated => 401
  | some .unauthorized => 403
  | some .invalidRequest => 400
  | some .notFound => 404
  | some .conflict => 409
  | some .internal => 500
  | none => 500

/-- The outgoing response state as observed through a response recorder:
accumulated headers, status code and body. -/
structure ResponseWriter where
  headers : List (String × String)
  status : Nat
  body : String
deriving DecidableEq, Repr

/-- A freshly initialized response recorder: no headers, status 200 and an
empty body. -/
def ResponseWriter.init : ResponseWriter := ⟨[], 200, ""⟩

/-- The request URL restricted to what the handler package reads:
r.URL.EscapedPath(). -/
structure URL where
  escapedPath : String
deriving DecidableEq, Repr

/-- Modelled from the spec: auth.AccessToken — the raw credential string
plus its token-type tag (in the source the tag is the string constant
auth.BearerTokenType). -/
structure AccessToken where
  token : String
  tokenType : String
deriving DecidableEq, Repr

/-- The request context as the handler package uses it: the correlation
(request) identifier and the access token, each absent until the
middleware that owns it stores it. -/
structure Ctx where
  requestID : Option String
  accessToken : Option AccessToken
deriving DecidableEq, Repr

/-- The request header map restricted to the one key the handler package
reads: the Go lookup headerValue, ok := r.Header["Authorization"] is
modelled with none for ok = false. -/
structure Header where
  authorization : Option (List String)
deriving DecidableEq, Repr

/-- The inbound HTTP request as the handler package observes it. -/
structure Request where
  method : String
  url : URL
  header : Header
  ctx : Ctx
deriving DecidableEq, Repr

/-- http.Handler: ServeHTTP(w, r) embedded as the function from the request
and the writer state to the final writer state. -/
def Handler : Type := Request → ResponseWriter → ResponseWriter

/-- Modelled from the spec: auth.BearerTokenType, the case-sensitive Bearer
scheme tag of the Authorization header. -/
def BearerTokenType : String := "Bearer"

/-- Modelled from the spec: auth.SetAccessToken2Context stores the raw
token string plus its scheme tag in the request context. -/
def SetAccessToken2Context (ctx : Ctx) (token tokenType : String) : Ctx :=
  { ctx with accessToken := some ⟨token, tokenType⟩ }

/-- Modelled from the spec: errs.HTTPErrorResponse — for the
unauthenticated and unauthorized kinds it writes only the declared status
code and no body; for every other kind (internal/unclassified included) it
writes the declared status code and a JSON error body. -/
def HTTPErrorResponse (w : ResponseWriter) (e : ClassifiedError) : ResponseWriter :=
  if e.kind = some .unauthenticated ∨ e.kind = some .unauthorized then
    { w with status := kindStatus e.kind }
  else
    { w with status := kindStatus e.kind,
             body := w.body ++ "\x7b\"error\":\"" ++ e.message ++ "\"\x7d" }

/-- JSONContentTypeHandler middleware adds the application/json
Content-Type header to the response (Go Header().Add appends) and then
calls the original handler. -/
def JSONContentTypeHandler (h : Handler) : Handler := fun r w =>
  h r { w with headers := w.headers ++ [("Content-Type", "application/json")] }

/-- The token computation of AccessTokenHandler (its var token block): when
the Authorization key is present with at least one value, the first value
with the Bearer scheme prefix trimmed; otherwise the empty string. -/
def accessTokenOf (r : Request) : String :=
  match r.header.authorization with
  | some headerValue =>
      if 1 ≤ headerValue.length then
        goTrimPrefix (headerValue.headD "") (BearerTokenType ++ " ")
      else ""
  | none => ""

/-- AccessTokenHandler middleware pulls the Bearer token from the
Authorization header: an empty token short-circuits with
errs.HTTPErrorResponse on an Unauthenticated classified error and the
original handler is never called; otherwise the token is stored in the
request context and the original handler runs on the enriched request. -/
def AccessTokenHandler (h : Handler) : Handler := fun r w =>
  let token := accessTokenOf r
  if token = "" then
    HTTPErrorResponse w
      (errsEK .unauthenticated (.errorsNew "Unauthenticated - empty Bearer token"))
  else
    h { r with ctx := SetAccessToken2Context r.ctx token BearerTokenType } w

/-- StandardResponse: the standard fields included in all non-error
response bodies. -/
structure StandardResponse (α : Type) where
  Path : String
  RequestID : String
  Data : α
deriving DecidableEq, Repr

/-- NewStandardResponse: the initializer for the StandardResponse struct —
takes the escaped URL path, then the request (trace) identifier pulled from
the request context by hlog.IDFromRequest; when no identifier is set it
returns the error errs.E(errors.New(...)) and no envelope. -/
def NewStandardResponse {α : Type} (r : Request) (d : α) :
    Except ClassifiedError (StandardResponse α) :=
  let path := r.url.escapedPath
  match r.ctx.requestID with
  | none => .error (errsE (.errorsNew "request ID not properly set to request context"))
  | some id => .ok ⟨path, id, d⟩

/-- DecoderErr handles an error returned by json Decode: the io.EOF
sentinel (empty body) and the io.ErrUnexpectedEOF sentinel (malformed
JSON) become invalid-request classified errors with fixed messages, any
other non-nil error is wrapped by errs.E without a kind, and nil maps to
nil. -/
def DecoderErr (err : Option GoError) : Option ClassifiedError :=
  if err = some .ioEOF then
    some (errsEK .invalidRequest (.errorsNew "Request Body cannot be empty"))
  else if err = some .ioErrUnexpectedEOF then
    some (errsEK .invalidRequest (.errorsNew "Malformed JSON"))
  else
    match err with
    | some e => some (errsE e)
    | none => none

/-- One structured access-log line as emitted on request completion by the
hlog.AccessHandler callback installed in LoggerHandlerChain, together with
the request_id field contributed by hlog.RequestIDHandler. -/
structure LogLine where
  method : String
  url : String
  status : Nat
  size : Nat
  request_id : String
deriving DecidableEq, Repr

/-- Modelled from the spec: one run of the chain built by
LoggerHandlerChain around an inner handler (the hlog middleware is an
external library).  The context enricher stores the freshly generated
correlation identifier in the request context, adds the Request-Id
response header, runs the inner handler, and after completion emits one
access-log line carrying the request_id field together with method, url,
final status and response size. -/
def LoggerHandlerChainRun (genID : String) (h : Handler) (r : Request)
    (w : ResponseWriter) : ResponseWriter × LogLine :=
  let r2 := { r with ctx := { r.ctx with requestID := some genID } }
  let w2 := { w with headers := w.headers ++ [("Request-Id", genID)] }
  let wOut := h r2 w2
  (wOut,
   { method := r.method, url := r.url.escapedPath, status := wOut.status,
     size := wOut.body.length, request_id := genID })

/-- Modelled from the spec: the JSON serialization of the standard
response envelope for a pre-serialized string payload. -/
def encodeStandardResponse (sr : StandardResponse String) : String :=
  "\x7b\"path\":\"" ++ sr.Path ++ "\",\"request_id\":\"" ++ sr.RequestID ++
    "\",\"data\":" ++ sr.Data ++ "\x7d"

/-- Modelled from the spec: a terminal resource handler that wraps its
payload via NewStandardResponse and writes the envelope with status 200,
or hands the classified error to errs.HTTPErrorResponse. -/
def envelopeHandler (payload : String) : Handler := fun r w =>
  match NewStandardResponse r payload with
  | .ok sr => { w with status := 200, body := w.body ++ encodeStandardResponse sr }
  | .error e => HTTPErrorResponse w e

/-- The full handler chain as the handler tests assemble it:
LoggerHandlerChain, then AccessTokenHandler, then JSONContentTypeHandler,
then the terminal envelope handler. -/
def fullChainRun (genID payload : String) (r : Request) (w : ResponseWriter) :
    ResponseWriter × LogLine :=
  LoggerHandlerChainRun genID
    (AccessTokenHandler (JSONContentTypeHandler (envelopeHandler payload))) r w

/-- Appending pre back onto the trimmed string recovers the original: the
prefix was removed exactly once. -/
theorem goTrimPrefix_append (s pre : String) (h : goHasPrefix s pre = true) :
    pre ++ goTrimPrefix s pre = s := by
  have h2 := h
  unfold goHasPrefix at h2
  rw [List.isPrefixOf_iff_prefix] at h2
  obtain ⟨t, ht⟩ := h2
  unfold goTrimPrefix
  rw [if_pos h]
  apply String.ext
  rw [String.data_append]
  show pre.data ++ List.drop pre.data.length s.data = s.data
  rw [← ht, List.drop_left]

/-- When pre is not a prefix of s, TrimPrefix returns s unchanged. -/
theorem goTrimPrefix_no_match (s pre : String) (h : goHasPrefix s pre = false) :
    goTrimPrefix s pre = s := by
  simp [goTrimPrefix, h]

/-- When the extracted token is nonempty, AccessTokenHandler stores it in
the request context and calls the wrapped handler on the enriched request. -/
theorem AccessTokenHandler_pass (h : Handler) (r : Request) (w : ResponseWriter)
    (hne : accessTokenOf r ≠ "") :
    AccessTokenHandler h r w =
      h { r with ctx := SetAccessToken2Context r.ctx (accessTokenOf r) BearerTokenType } w := by
  simp [AccessTokenHandler, hne]

/-- Prepending the empty string leaves a string unchanged. -/
theorem empty_string_append (s : String) : "" ++ s = s := by
  apply String.ext
  rw [String.data_append]
  rfl

/-- C1: for every request whose Authorization header is missing, or whose
first header value is empty after stripping the Bearer scheme prefix,
AccessTokenHandler responds with HTTP status 401 and an empty response
body, and the wrapped downstream handler is never invoked (the outcome is
the same for every downstream handler). -/
theorem AccessTokenHandler_missing_or_empty_401 (r : Request) (w : ResponseWriter)
    (hbody : w.body = "")
    (hmiss : r.header.authorization = none ∨
      ∃ v rest, r.header.authorization = some (v :: rest) ∧
        goTrimPrefix v (BearerTokenType ++ " ") = "") :
    ∀ h : Handler,
      (AccessTokenHandler h r w).status = 401 ∧
      (AccessTokenHandler h r w).body = "" ∧
      ∀ h2 : Handler, AccessTokenHandler h2 r w = AccessTokenHandler h r w := by
  have htok : accessTokenOf r = "" := by
    rcases hmiss with hnone | ⟨v, rest, hsome, htrim⟩
    · simp [accessTokenOf, hnone]
    · simp [accessTokenOf, hsome, htrim]
  have hrun : ∀ h2 : Handler, AccessTokenHandler h2 r w = { w with status := 401 } := by
    intro h2
    simp [AccessTokenHandler, htok, HTTPErrorResponse, errsEK, kindStatus]
  intro h
  exact ⟨by rw [hrun h], by rw [hrun h]; exact hbody,
    fun h2 => by rw [hrun h2, hrun h]⟩

/-- C1 witness: a GET with no Authorization header gets status 401 and an
empty body through AccessTokenHandler, for a downstream handler that would
have written status 200 and a nonempty body. -/
theorem AccessTokenHandler_missing_or_empty_401_witness :
    (AccessTokenHandler (fun _ w => { w with status := 200, body := "x" })
        ⟨"GET", ⟨"/api/v1/movies"⟩, ⟨none⟩, ⟨none, none⟩⟩ ResponseWriter.init).status = 401 ∧
    (AccessTokenHandler (fun _ w => { w with status := 200, body := "x" })
        ⟨"GET", ⟨"/api/v1/movies"⟩, ⟨none⟩, ⟨none, none⟩⟩ ResponseWriter.init).body = "" :=
  ⟨(AccessTokenHandler_missing_or_empty_401 _ _ rfl (Or.inl rfl) _).1,
   (AccessTokenHandler_missing_or_empty_401 _ _ rfl (Or.inl rfl) _).2.1⟩

/-- C2 counterexample: with Authorization value "Basic xyz" (a non-Bearer
scheme) AccessTokenHandler does NOT short-circuit: the downstream handler
runs and observes the stored token "Basic xyz" (it copies it into the
response body), and the status is not 401. -/
theorem AccessTokenHandler_scheme_not_validated :
    (AccessTokenHandler
        (fun r w => { w with body := (r.ctx.accessToken.map AccessToken.token).getD "" })
        ⟨"GET", ⟨"/api/v1/movies"⟩, ⟨some ["Basic xyz"]⟩, ⟨none, none⟩⟩
        ResponseWriter.init).body = "Basic xyz" ∧
    (AccessTokenHandler
        (fun r w => { w with body := (r.ctx.accessToken.map AccessToken.token).getD "" })
        ⟨"GET", ⟨"/api/v1/movies"⟩, ⟨some ["Basic xyz"]⟩, ⟨none, none⟩⟩
        ResponseWriter.init).status = 200 :=
  ⟨rfl, rfl⟩

/-- C2 (amended): AccessTokenHandler performs no scheme validation.  When
the first Authorization value does not start with the Bearer scheme prefix
and is nonempty, TrimPrefix leaves it unchanged, the whole header value is
stored in the request context as the token, and the downstream handler IS
invoked. -/
theorem AccessTokenHandler_other_scheme_passes (h : Handler) (r : Request)
    (w : ResponseWriter) (v : String) (rest : List String)
    (hv : r.header.authorization = some (v :: rest))
    (hpre : goHasPrefix v (BearerTokenType ++ " ") = false)
    (hne : v ≠ "") :
    AccessTokenHandler h r w =
      h { r with ctx := SetAccessToken2Context r.ctx v BearerTokenType } w := by
  have htok : accessTokenOf r = v := by
    simp [accessTokenOf, hv, goTrimPrefix_no_match _ _ hpre]
  simp [AccessTokenHandler, htok, hne]

/-- C2 (amended) witness: at Authorization value "Basic xyz" the chain
continues into the downstream handler with the whole value as token. -/
theorem AccessTokenHandler_other_scheme_passes_witness :
    AccessTokenHandler (fun _ w => { w with status := 200 })
        ⟨"GET", ⟨"/api/v1/movies"⟩, ⟨some ["Basic xyz"]⟩, ⟨none, none⟩⟩
        ResponseWriter.init =
      (fun (_ : Request) (w : ResponseWriter) => { w with status := 200 })
        ⟨"GET", ⟨"/api/v1/movies"⟩, ⟨some ["Basic xyz"]⟩,
          SetAccessToken2Context ⟨none, none⟩ "Basic xyz" BearerTokenType⟩
        ResponseWriter.init :=
  AccessTokenHandler_other_scheme_passes _ _ _ "Basic xyz" [] rfl rfl (by decide)

/-- C3: DecoderErr equals the reference map — nil yields nil, the io.EOF
sentinel yields an invalid-request classified error with message "Request
Body cannot be empty", the io.ErrUnexpectedEOF sentinel yields an
invalid-request classified error with message "Malformed JSON", and every
other non-nil error is wrapped without reclassification with its cause
preserved. -/
theorem DecoderErr_classification :
    DecoderErr none = none ∧
    DecoderErr (some .ioEOF) =
      some (errsEK .invalidRequest (.errorsNew "Request Body cannot be empty")) ∧
    DecoderErr (some .ioErrUnexpectedEOF) =
      some (errsEK .invalidRequest (.errorsNew "Malformed JSON")) ∧
    ∀ e : GoError, e ≠ .ioEOF → e ≠ .ioErrUnexpectedEOF →
      DecoderErr (some e) = some (errsE e) := by
  refine ⟨rfl, rfl, rfl, ?_⟩
  intro e h1 h2
  simp [DecoderErr, h1, h2]

/-- C4: for every request with a first Authorization value that passes the
gate, the token stored in the request context equals that value with the
Bearer scheme prefix removed exactly once (prepending the prefix recovers
the original value), and a value that does not start with the prefix is
stored unchanged. -/
theorem AccessTokenHandler_strips_prefix_once (h : Handler) (r : Request)
    (w : ResponseWriter) (v : String) (rest : List String)
    (hv : r.header.authorization = some (v :: rest))
    (hpass : goTrimPrefix v (BearerTokenType ++ " ") ≠ "") :
    AccessTokenHandler h r w =
      h { r with
          ctx :=
            SetAccessToken2Context r.ctx (goTrimPrefix v (BearerTokenType ++ " "))
              BearerTokenType } w ∧
    (goHasPrefix v (BearerTokenType ++ " ") = true →
      (BearerTokenType ++ " ") ++ goTrimPrefix v (BearerTokenType ++ " ") = v) ∧
    (goHasPrefix v (BearerTokenType ++ " ") = false →
      goTrimPrefix v (BearerTokenType ++ " ") = v) := by
  have htok : accessTokenOf r = goTrimPrefix v (BearerTokenType ++ " ") := by
    simp [accessTokenOf, hv]
  refine ⟨?_, fun hp => goTrimPrefix_append v _ hp, fun hp => goTrimPrefix_no_match v _ hp⟩
  rw [← htok] at hpass ⊢
  exact AccessTokenHandler_pass h r w hpass

/-- C4 witness: the value "Bearer Bearer tok" is stripped exactly once —
the stored token is "Bearer tok", not "tok". -/
theorem AccessTokenHandler_strips_prefix_once_witness :
    AccessTokenHandler (fun _ w => { w with status := 200 })
        ⟨"GET", ⟨"/api/v1/movies"⟩, ⟨some ["Bearer Bearer tok"]⟩, ⟨none, none⟩⟩
        ResponseWriter.init =
      (fun (_ : Request) (w : ResponseWriter) => { w with status := 200 })
        ⟨"GET", ⟨"/api/v1/movies"⟩, ⟨some ["Bearer Bearer tok"]⟩,
          SetAccessToken2Context ⟨none, none⟩ "Bearer tok" BearerTokenType⟩
        ResponseWriter.init ∧
    "Bearer " ++ "Bearer tok" = "Bearer Bearer tok" :=
  ⟨(AccessTokenHandler_strips_prefix_once _ _ _ "Bearer Bearer tok" [] rfl
      (by decide)).1,
   (AccessTokenHandler_strips_prefix_once (fun _ w => { w with status := 200 })
      ⟨"GET", ⟨"/api/v1/movies"⟩, ⟨some ["Bearer Bearer tok"]⟩, ⟨none, none⟩⟩
      ResponseWriter.init "Bearer Bearer tok" [] rfl (by decide)).2.1 rfl⟩

/-- C5: NewStandardResponse returns an error exactly when the correlation
(request) identifier is absent from the request context; in the failure
case the returned classified error carries no caller kind and maps (as
internal/unclassified) to HTTP 500, and no envelope is produced. -/
theorem NewStandardResponse_error_iff_missing_requestID {α : Type} (r : Request) (d : α) :
    (r.ctx.requestID = none →
      NewStandardResponse r d =
        .error (errsE (.errorsNew "request ID not properly set to request context")) ∧
      kindStatus (errsE (.errorsNew "request ID not properly set to request context")).kind
        = 500) ∧
    (∀ e : ClassifiedError, NewStandardResponse r d = .error e →
      r.ctx.requestID = none) := by
  constructor
  · intro hnone
    exact ⟨by simp [NewStandardResponse, hnone], rfl⟩
  · intro e he
    cases hid : r.ctx.requestID with
    | none => rfl
    | some id => simp [NewStandardResponse, hid] at he

/-- C6: for every request whose context holds a correlation identifier,
NewStandardResponse succeeds and the envelope's Path equals the request's
escaped URL path, its RequestID equals the identifier from the context,
and its Data equals the supplied payload. -/
theorem NewStandardResponse_success_fields {α : Type} (r : Request) (d : α)
    (id : String) (hid : r.ctx.requestID = some id) :
    NewStandardResponse r d = .ok ⟨r.url.escapedPath, id, d⟩ := by
  simp [NewStandardResponse, hid]

/-- C6 witness: with identifier "req-42" in the context the envelope holds
the request's escaped path, "req-42" and the payload. -/
theorem NewStandardResponse_success_fields_witness :
    NewStandardResponse
        ⟨"POST", ⟨"/api/v1/movies"⟩, ⟨some ["Bearer abc"]⟩, ⟨some "req-42", none⟩⟩
        "payload" =
      .ok ⟨"/api/v1/movies", "req-42", "payload"⟩ :=
  NewStandardResponse_success_fields _ "payload" "req-42" rfl

/-- C7: JSONContentTypeHandler calls the downstream handler on the very
same request with the response extended by exactly the header pair
Content-Type: application/json — status and body are untouched by the
middleware itself (it is total and keeps no state). -/
theorem JSONContentTypeHandler_adds_json_header (h : Handler) (r : Request)
    (w : ResponseWriter) :
    JSONContentTypeHandler h r w =
      h r { w with headers := w.headers ++ [("Content-Type", "application/json")] } ∧
    ({ w with headers := w.headers ++ [("Content-Type", "application/json")]
        : ResponseWriter }).status = w.status ∧
    ({ w with headers := w.headers ++ [("Content-Type", "application/json")]
        : ResponseWriter }).body = w.body :=
  ⟨rfl, rfl, rfl⟩

/-- C8: for every request through the full chain that passes the token
gate, one envelope is produced whose RequestID is the generated
correlation identifier, the access-log line carries the same identifier in
its request_id field, and the Request-Id response header carries it too. -/
theorem requestID_consistent_across_observers (genID payload : String)
    (r : Request) (w : ResponseWriter) (hbody : w.body = "")
    (hauth : accessTokenOf r ≠ "") :
    ∃ sr : StandardResponse String,
      (fullChainRun genID payload r w).1.body = encodeStandardResponse sr ∧
      sr.RequestID = genID ∧
      (fullChainRun genID payload r w).2.request_id = genID ∧
      ("Request-Id", genID) ∈ (fullChainRun genID payload r w).1.headers := by
  have hauth2 : accessTokenOf
      { r with ctx := { r.ctx with requestID := some genID } } ≠ "" := hauth
  have hproj : (fullChainRun genID payload r w).1 =
      AccessTokenHandler (JSONContentTypeHandler (envelopeHandler payload))
        { r with ctx := { r.ctx with requestID := some genID } }
        { w with headers := w.headers ++ [("Request-Id", genID)] } := rfl
  have hrun : (fullChainRun genID payload r w).1 =
      { headers := (w.headers ++ [("Request-Id", genID)]) ++
          [("Content-Type", "application/json")],
        status := 200,
        body := w.body ++
          encodeStandardResponse ⟨r.url.escapedPath, genID, payload⟩ } := by
    rw [hproj,
      AccessTokenHandler_pass (JSONContentTypeHandler (envelopeHandler payload))
        _ _ hauth2]
    rfl
  refine ⟨⟨r.url.escapedPath, genID, payload⟩, ?_, rfl, rfl, ?_⟩
  · rw [hrun]
    show w.body ++ _ = _
    rw [hbody, empty_string_append]
  · rw [hrun]
    simp

/-- C8 witness: a POST with a Bearer token through the full chain yields
the same identifier in the envelope, the log line and the Request-Id
header. -/
theorem requestID_consistent_across_observers_witness :
    ∃ sr : StandardResponse String,
      (fullChainRun "c0abc123" "null"
          ⟨"POST", ⟨"/api/v1/movies"⟩, ⟨some ["Bearer abc123def1"]⟩, ⟨none, none⟩⟩
          ResponseWriter.init).1.body = encodeStandardResponse sr ∧
      sr.RequestID = "c0abc123" ∧
      (fullChainRun "c0abc123" "null"
          ⟨"POST", ⟨"/api/v1/movies"⟩, ⟨some ["Bearer abc123def1"]⟩, ⟨none, none⟩⟩
          ResponseWriter.init).2.request_id = "c0abc123" ∧
      ("Request-Id", "c0abc123") ∈ (fullChainRun "c0abc123" "null"
          ⟨"POST", ⟨"/api/v1/movies"⟩, ⟨some ["Bearer abc123def1"]⟩, ⟨none, none⟩⟩
          ResponseWriter.init).1.headers :=
  requestID_consistent_across_observers "c0abc123" "null" _ _ rfl (by decide)

/-- C9: invariant of AccessTokenHandler — either the outcome is the same
for every downstream handler (the downstream handler is not consulted), or
the downstream handler is invoked on a request whose context holds a
nonempty token tagged with the Bearer token type. -/
theorem AccessTokenHandler_downstream_token_invariant (h : Handler)
    (r : Request) (w : ResponseWriter) :
    (∀ h2 : Handler, AccessTokenHandler h2 r w = AccessTokenHandler h r w) ∨
    ∃ r2 : Request, AccessTokenHandler h r w = h r2 w ∧
      ∃ t : String, t ≠ "" ∧ r2.ctx.accessToken = some ⟨t, BearerTokenType⟩ := by
  by_cases htok : accessTokenOf r = ""
  · left
    intro h2
    simp [AccessTokenHandler, htok]
  · right
    exact ⟨{ r with ctx := SetAccessToken2Context r.ctx (accessTokenOf r) BearerTokenType },
      AccessTokenHandler_pass h r w htok, accessTokenOf r, htok, rfl⟩

/-- C10: AccessTokenHandler consults only the first Authorization value —
the extracted token is the first value with the Bearer prefix trimmed, and
the whole behavior of the middleware is determined by that first value,
whatever the remaining values are. -/
theorem AccessTokenHandler_uses_first_value_only (method : String) (url : URL)
    (ctx : Ctx) (v : String) (rest rest2 : List String) :
    accessTokenOf ⟨method, url, ⟨some (v :: rest)⟩, ctx⟩ =
      accessTokenOf ⟨method, url, ⟨some (v :: rest2)⟩, ctx⟩ ∧
    accessTokenOf ⟨method, url, ⟨some (v :: rest)⟩, ctx⟩ =
      goTrimPrefix v (BearerTokenType ++ " ") ∧
    ∀ (h : Handler) (w : ResponseWriter),
      AccessTokenHandler h ⟨method, url, ⟨some (v :: rest)⟩, ctx⟩ w =
        if goTrimPrefix v (BearerTokenType ++ " ") = "" then
          HTTPErrorResponse w
            (errsEK .unauthenticated (.errorsNew "Unauthenticated - empty Bearer token"))
        else
          h ⟨method, url, ⟨some (v :: rest)⟩,
              SetAccessToken2Context ctx (goTrimPrefix v (BearerTokenType ++ " "))
                BearerTokenType⟩ w := by
  have h1 : accessTokenOf ⟨method, url, ⟨some (v :: rest)⟩, ctx⟩ =
      goTrimPrefix v (BearerTokenType ++ " ") := by
    simp [accessTokenOf]
  have h2 : accessTokenOf ⟨method, url, ⟨some (v :: rest2)⟩, ctx⟩ =
      goTrimPrefix v (BearerTokenType ++ " ") := by
    simp [accessTokenOf]
  refine ⟨h1.trans h2.symm, h1, fun h w => ?_⟩
  simp only [AccessTokenHandler, h1]

end GoApiBasic
